import Mathlib

/-!
Verification of the Wildberries report converter (convert_wb_report.py).

The script aggregates a transaction table by supplier article, computes
per-article financial metrics, appends a grand total row and renders the
result.  We embed the data model and the arithmetic of process_report,
add_total_row and main over exact rationals: every Python float value of
the report is modelled as a rational number, and the Python builtin
round(x, 2) is modelled by round2 below (Python rounds half to even).
-/

/-- Round a rational to the nearest integer, halves to the even integer.
This is the rounding mode of the Python builtin round. -/
def rhe (q : ℚ) : ℤ :=
  if q - ⌊q⌋ < 1/2 then ⌊q⌋
  else if 1/2 < q - ⌊q⌋ then ⌊q⌋ + 1
  else if ⌊q⌋ % 2 = 0 then ⌊q⌋ else ⌊q⌋ + 1

/-- Model of the Python expression round(q, 2): round to two decimal places,
halves to even. -/
def round2 (q : ℚ) : ℚ := (rhe (q * 100) : ℚ) / 100

/-- One transaction row of the input table.  Field correspondence with the
source columns: article = Артикул поставщика, docType = Тип документа,
qty = Кол-во, price = Цена розничная, delivery = Услуги по доставке товара
покупателю, penalty = Общая сумма штрафов, remit = К перечислению Продавцу
за реализованный Товар, name = Название, brand = Бренд. -/
structure Row where
  article : String
  docType : String
  qty : Int
  price : ℚ
  delivery : ℚ
  penalty : ℚ
  remit : ℚ
  name : String
  brand : String

/-- Placeholder row, used only as the default of headD; the aggregation
loop reads the head of a row list only for articles present in the table,
where the list is nonempty. -/
def emptyRow : Row :=
  { article := "", docType := "", qty := 0, price := 0, delivery := 0
    penalty := 0, remit := 0, name := "", brand := "" }

/-- Configuration constant: Себестоимость = 60% от средней цены. -/
def COST_PERCENTAGE : ℚ := 6/10

/-- Configuration constant: the column the summary is sorted by. -/
def SORT_BY : String := "Продано (шт)"

/-- Configuration constant: False = от большего к меньшему. -/
def SORT_ASCENDING : Bool := false

/-- article_data = df[df[Артикул поставщика] == article]. -/
def articleData (rows : List Row) (a : String) : List Row :=
  rows.filter (fun r => r.article == a)

/-- sales_data = article_data[article_data[Тип документа] == Продажа]. -/
def salesData (rows : List Row) (a : String) : List Row :=
  (articleData rows a).filter (fun r => r.docType == "Продажа")

/-- returns_data = article_data[article_data[Тип документа] == Возврат]. -/
def returnsData (rows : List Row) (a : String) : List Row :=
  (articleData rows a).filter (fun r => r.docType == "Возврат")

/-- qty_sold = sales_data[Кол-во].sum(). -/
def rawQtySold (rows : List Row) (a : String) : Int :=
  ((salesData rows a).map (·.qty)).sum

/-- qty_returned = returns_data[Кол-во].sum(). -/
def rawQtyReturned (rows : List Row) (a : String) : Int :=
  ((returnsData rows a).map (·.qty)).sum

/-- avg_price = sales_data[Цена розничная].mean() if len(sales_data) > 0
else 0. -/
def rawAvgPrice (rows : List Row) (a : String) : ℚ :=
  if (salesData rows a).length > 0 then
    ((salesData rows a).map (·.price)).sum / ((salesData rows a).length : ℚ)
  else 0

/-- cost_price = avg_price * COST_PERCENTAGE. -/
def rawCostPrice (rows : List Row) (a : String) : ℚ :=
  rawAvgPrice rows a * COST_PERCENTAGE

/-- total_cost = cost_price * qty_sold. -/
def rawTotalCost (rows : List Row) (a : String) : ℚ :=
  rawCostPrice rows a * (rawQtySold rows a : ℚ)

/-- logistics_cost = article_data[Услуги по доставке товара покупателю].sum():
summed over all rows of the article, with no document type filter. -/
def rawLogistics (rows : List Row) (a : String) : ℚ :=
  ((articleData rows a).map (·.delivery)).sum

/-- penalties = article_data[Общая сумма штрафов].sum(). -/
def rawPenalties (rows : List Row) (a : String) : ℚ :=
  ((articleData rows a).map (·.penalty)).sum

/-- total_expenses = total_cost + logistics_cost + penalties. -/
def rawTotalExpenses (rows : List Row) (a : String) : ℚ :=
  rawTotalCost rows a + rawLogistics rows a + rawPenalties rows a

/-- revenue = article_data[К перечислению Продавцу за реализованный
Товар].sum(). -/
def rawRevenue (rows : List Row) (a : String) : ℚ :=
  ((articleData rows a).map (·.remit)).sum

/-- net_profit = revenue - total_expenses. -/
def rawNetProfit (rows : List Row) (a : String) : ℚ :=
  rawRevenue rows a - rawTotalExpenses rows a

/-- One aggregated record of the summary, one per distinct article.
Decimal fields hold the values as stored by the dict appended to summary
in process_report, that is already rounded to two decimal places. -/
structure SummaryRecord where
  article : String
  brand : String
  name : String
  qty_sold : Int
  qty_returned : Int
  avg_price : ℚ
  cost_price : ℚ
  total_cost : ℚ
  logistics : ℚ
  penalties : ℚ
  total_expenses : ℚ
  revenue : ℚ
  net_profit : ℚ
  margin : ℚ

/-- The dict built for one article in the loop body of process_report
(lines 83 to 128 of the source). -/
def processRecord (rows : List Row) (a : String) : SummaryRecord :=
  { article := a
    brand := ((articleData rows a).headD emptyRow).brand
    name := ((articleData rows a).headD emptyRow).name
    qty_sold := rawQtySold rows a
    qty_returned := rawQtyReturned rows a
    avg_price := round2 (rawAvgPrice rows a)
    cost_price := round2 (rawCostPrice rows a)
    total_cost := round2 (rawTotalCost rows a)
    logistics := round2 (rawLogistics rows a)
    penalties := round2 (rawPenalties rows a)
    total_expenses := round2 (rawTotalExpenses rows a)
    revenue := round2 (rawRevenue rows a)
    net_profit := round2 (rawNetProfit rows a)
    margin := round2 (if 0 < rawRevenue rows a then
      rawNetProfit rows a / rawRevenue rows a * 100 else 0) }

/-- Distinct values in order of first appearance, the iteration order of
pandas Series.unique; seen accumulates the values already emitted. -/
def uniquesAux : List String → List String → List String
  | [], _ => []
  | x :: rest, seen =>
    if x ∈ seen then uniquesAux rest seen
    else x :: uniquesAux rest (x :: seen)

/-- df[Артикул поставщика].unique(): distinct articles in order of first
appearance. -/
def uniques (rows : List Row) : List String :=
  uniquesAux (rows.map (·.article)) []

/-- summary_df.sort_values(SORT_BY, ascending=SORT_ASCENDING): sort the
records by qty_sold, descending by default.  pandas uses the numpy
quicksort kind by default, whose order among tied keys is unspecified;
mergeSort is one admissible refinement of that contract. -/
def sortStep (rs : List SummaryRecord) : List SummaryRecord :=
  rs.mergeSort (fun x y =>
    if SORT_ASCENDING then decide (x.qty_sold ≤ y.qty_sold)
    else decide (y.qty_sold ≤ x.qty_sold))

/-- process_report (lines 70 to 136): build one record per distinct
article, then sort.  When the table has no rows the summary list is empty,
pd.DataFrame of an empty list has no columns at all, and sort_values
raises KeyError on the missing sort column; we model that pandas failure
as an error value. -/
def process_report (rows : List Row) : Except String (List SummaryRecord) :=
  let summary := (uniques rows).map (processRecord rows)
  if summary.isEmpty then Except.error "KeyError: Продано (шт)"
  else Except.ok (sortStep summary)

/-- One cell of the rendered table: a pandas object column entry.  The
undef case models the non finite float (nan or inf) produced by the
unguarded division of the total margin when total revenue is zero. -/
inductive Cell where
  | s (v : String)
  | i (v : Int)
  | q (v : ℚ)
  | undef

/-- One output row of the totalized frame. -/
structure OutRecord where
  article : Cell
  brand : Cell
  name : Cell
  qty_sold : Cell
  qty_returned : Cell
  avg_price : Cell
  cost_price : Cell
  total_cost : Cell
  logistics : Cell
  penalties : Cell
  total_expenses : Cell
  revenue : Cell
  net_profit : Cell
  margin : Cell

/-- An aggregated record viewed as a row of the totalized frame. -/
def toOut (r : SummaryRecord) : OutRecord :=
  { article := .s r.article, brand := .s r.brand, name := .s r.name
    qty_sold := .i r.qty_sold, qty_returned := .i r.qty_returned
    avg_price := .q r.avg_price, cost_price := .q r.cost_price
    total_cost := .q r.total_cost, logistics := .q r.logistics
    penalties := .q r.penalties, total_expenses := .q r.total_expenses
    revenue := .q r.revenue, net_profit := .q r.net_profit
    margin := .q r.margin }

/-- total_row (lines 140 to 155): the grand total dict.  Each monetary
column sums the already rounded per record values and rounds the sum
again; the two per unit columns are blank strings; the margin divides by
the total revenue without a zero guard. -/
def total_row (rs : List SummaryRecord) : OutRecord :=
  { article := .s "ИТОГО:", brand := .s "", name := .s ""
    qty_sold := .i ((rs.map (·.qty_sold)).sum)
    qty_returned := .i ((rs.map (·.qty_returned)).sum)
    avg_price := .s "", cost_price := .s ""
    total_cost := .q (round2 ((rs.map (·.total_cost)).sum))
    logistics := .q (round2 ((rs.map (·.logistics)).sum))
    penalties := .q (round2 ((rs.map (·.penalties)).sum))
    total_expenses := .q (round2 ((rs.map (·.total_expenses)).sum))
    revenue := .q (round2 ((rs.map (·.revenue)).sum))
    net_profit := .q (round2 ((rs.map (·.net_profit)).sum))
    margin := if (rs.map (·.revenue)).sum = 0 then .undef
      else .q (round2
        ((rs.map (·.net_profit)).sum / (rs.map (·.revenue)).sum * 100)) }

/-- add_total_row (lines 138 to 157): pd.concat([df, total_row]), the
total row appended last. -/
def add_total_row (rs : List SummaryRecord) : List OutRecord :=
  rs.map toOut ++ [total_row rs]

/-- The part of the invocation environment that main observes: whether
the input path exists, and the table the loader would read from it. -/
structure Env where
  inputExists : Bool
  table : List Row

/-- Outcome of one invocation of main.  earlyReturn: the file existence
check failed, a message was printed and main returned before any
processing, no output file was created.  completed: the pipeline ran and
the output file holding the given report was persisted.  caughtError: some
pipeline stage raised, the top level handler caught it and printed the
message, no output file was created. -/
inductive MainResult where
  | earlyReturn (message : String)
  | completed (report : List OutRecord)
  | caughtError (message : String)

/-- main (lines 267 to 303; named mainProgram since Lean reserves the name main): existence check with early return, then the
pipeline under a catch all handler.  Rendering and the console digest are
abstracted into the completed outcome. -/
def mainProgram (env : Env) : MainResult :=
  if env.inputExists then
    match process_report env.table with
    | Except.error e => MainResult.caughtError e
    | Except.ok summary => MainResult.completed (add_total_row summary)
  else MainResult.earlyReturn "[!] Ошибка: Файл не найден"

/-- Spec side definition, for comparison with the nested filters of the
source: the Sale rows of one article, selected in a single pass. -/
def specSaleRows (rows : List Row) (a : String) : List Row :=
  rows.filter (fun r => r.article == a && r.docType == "Продажа")

/-- Spec side definition: the Return rows of one article. -/
def specReturnRows (rows : List Row) (a : String) : List Row :=
  rows.filter (fun r => r.article == a && r.docType == "Возврат")

/-- Spec side definition: all rows of one article, any document type. -/
def specRowsOf (rows : List Row) (a : String) : List Row :=
  rows.filter (fun r => r.article == a)

/-- Spec side definition: mean of retail price over the Sale rows of the
article, 0 when there are none. -/
def specAvgSalePrice (rows : List Row) (a : String) : ℚ :=
  if (specSaleRows rows a).length = 0 then 0
  else ((specSaleRows rows a).map (·.price)).sum
    / ((specSaleRows rows a).length : ℚ)

/-- Input exhibiting interaction of rounding with addition: an article
with no Sale rows, a delivery fee of 0.125 and a penalty of 0.125. -/
def cexRow : Row :=
  { article := "A", docType := "Прочее", qty := 0, price := 0
    delivery := 1/8, penalty := 1/8, remit := 0, name := "N", brand := "B" }

/-- Input exhibiting independent rounding of unit cost and total cost: one
Sale row with retail price 0.025 and quantity 10. -/
def c10Row : Row :=
  { article := "A", docType := "Продажа", qty := 10, price := 1/40
    delivery := 0, penalty := 0, remit := 0, name := "N", brand := "B" }

/-- A simple Sale row: quantity 10, price 100, remittance 900. -/
def demoRow : Row :=
  { article := "A", docType := "Продажа", qty := 10, price := 100
    delivery := 0, penalty := 0, remit := 900, name := "N", brand := "B" }

/-- An aggregated record whose decimal fields are all whole cents. -/
def demoRecord : SummaryRecord :=
  { article := "A", brand := "B", name := "N", qty_sold := 10
    qty_returned := 2, avg_price := 100, cost_price := 60, total_cost := 600
    logistics := 5/2, penalties := 3/2, total_expenses := 604, revenue := 900
    net_profit := 296, margin := 3289/100 }

/-! ### Rounding lemmas -/

theorem rhe_intCast (n : ℤ) : rhe (n : ℚ) = n := by
  simp [rhe, Int.floor_intCast]

theorem round2_zero : round2 0 = 0 := by
  have h : ((0 : ℤ) : ℚ) = 0 := by norm_num
  rw [round2, zero_mul, ← h, rhe_intCast]
  norm_num

theorem round2_cent (n : ℤ) : round2 ((n : ℚ) / 100) = (n : ℚ) / 100 := by
  have h : (n : ℚ) / 100 * 100 = (n : ℚ) := by field_simp
  rw [round2, h, rhe_intCast]

theorem round2_fix_of_cent (q : ℚ) (n : ℤ) (h : q = (n : ℚ) / 100) :
    round2 q = q := by
  rw [h]; exact round2_cent n

theorem cent_of_fix (q : ℚ) (h : round2 q = q) :
    ∃ n : ℤ, q = (n : ℚ) / 100 :=
  ⟨rhe (q * 100), h.symm⟩

theorem round2_fix_add (a b : ℚ) (ha : round2 a = a) (hb : round2 b = b) :
    round2 (a + b) = a + b := by
  obtain ⟨n, hn⟩ := cent_of_fix a ha
  obtain ⟨m, hm⟩ := cent_of_fix b hb
  refine round2_fix_of_cent _ (n + m) ?_
  rw [hn, hm]; push_cast; ring

theorem round2_fix_sub (a b : ℚ) (ha : round2 a = a) (hb : round2 b = b) :
    round2 (a - b) = a - b := by
  obtain ⟨n, hn⟩ := cent_of_fix a ha
  obtain ⟨m, hm⟩ := cent_of_fix b hb
  refine round2_fix_of_cent _ (n - m) ?_
  rw [hn, hm]; push_cast; ring

theorem round2_sum_fix (l : List ℚ) (h : ∀ q ∈ l, round2 q = q) :
    round2 l.sum = l.sum := by
  induction l with
  | nil => simpa using round2_zero
  | cons a t ih =>
    rw [List.sum_cons]
    exact round2_fix_add _ _ (h a (by simp)) (ih fun q hq => h q (by simp [hq]))

/-! ### Filter lemmas relating the nested source filters to the single
pass spec side row selections -/

theorem salesData_eq_spec (rows : List Row) (a : String) :
    salesData rows a = specSaleRows rows a := by
  rw [salesData, articleData, specSaleRows, List.filter_filter]
  exact List.filter_congr fun x _ => Bool.and_comm _ _

theorem returnsData_eq_spec (rows : List Row) (a : String) :
    returnsData rows a = specReturnRows rows a := by
  rw [returnsData, articleData, specReturnRows, List.filter_filter]
  exact List.filter_congr fun x _ => Bool.and_comm _ _

theorem articleData_eq_spec (rows : List Row) (a : String) :
    articleData rows a = specRowsOf rows a := rfl

theorem rawAvgPrice_eq_spec (rows : List Row) (a : String) :
    rawAvgPrice rows a = specAvgSalePrice rows a := by
  rw [rawAvgPrice, specAvgSalePrice, salesData_eq_spec]
  by_cases h : (specSaleRows rows a).length = 0
  · simp [h]
  · simp [h, Nat.pos_of_ne_zero h]

/-- Claim C1: for every input table and article, the aggregated record
computes avg_sale_price as the mean of retail price over the Sale rows of
that article (0 when there are none), units sold and returned as quantity
sums over the Sale and Return rows respectively, and logistics, penalties
and revenue as sums of the corresponding fields over all rows of that
article regardless of document type. -/
theorem aggregation_respects_doc_type_filters (rows : List Row) (a : String) :
    (processRecord rows a).avg_price = round2 (specAvgSalePrice rows a)
    ∧ (processRecord rows a).qty_sold = ((specSaleRows rows a).map (·.qty)).sum
    ∧ (processRecord rows a).qty_returned
        = ((specReturnRows rows a).map (·.qty)).sum
    ∧ (processRecord rows a).logistics
        = round2 (((specRowsOf rows a).map (·.delivery)).sum)
    ∧ (processRecord rows a).penalties
        = round2 (((specRowsOf rows a).map (·.penalty)).sum)
    ∧ (processRecord rows a).revenue
        = round2 (((specRowsOf rows a).map (·.remit)).sum) := by
  refine ⟨?_, ?_, ?_, ?_, ?_, ?_⟩
  · simp [processRecord, rawAvgPrice_eq_spec]
  · simp [processRecord, rawQtySold, salesData_eq_spec]
  · simp [processRecord, rawQtyReturned, returnsData_eq_spec]
  · simp [processRecord, rawLogistics, articleData_eq_spec]
  · simp [processRecord, rawPenalties, articleData_eq_spec]
  · simp [processRecord, rawRevenue, articleData_eq_spec]

/-- Claim C5: for every aggregated record, margin_percent is net profit
over revenue times 100 rounded to 2 decimals when revenue is positive,
and 0 otherwise, zero and negative revenue included. -/
theorem per_record_margin_guarded (rows : List Row) (a : String) :
    (processRecord rows a).margin
      = if 0 < rawRevenue rows a then
          round2 (rawNetProfit rows a / rawRevenue rows a * 100)
        else 0 := by
  by_cases h : 0 < rawRevenue rows a
  · simp [processRecord, h]
  · simp [processRecord, h, round2_zero]

/-- Claim C2 counterexample: with one article whose only row is neither a
Sale nor a Return and carries a delivery fee of 0.125 and a penalty of
0.125, the stored fields round to logistics 0.12, penalties 0.12,
total cost 0 but total expenses 0.25, so the stored values violate
total_expenses = total_cost + logistics_cost + penalties. -/
theorem rounded_expense_identity_fails :
    (processRecord [cexRow] "A").total_expenses
      ≠ (processRecord [cexRow] "A").total_cost
        + (processRecord [cexRow] "A").logistics
        + (processRecord [cexRow] "A").penalties := by
  have hart : articleData [cexRow] "A" = [cexRow] := by
    simp +decide [articleData, cexRow]
  have hsales : salesData [cexRow] "A" = [] := by
    rw [salesData, hart]; simp +decide [cexRow]
  have hTC : rawTotalCost [cexRow] "A" = 0 := by
    simp [rawTotalCost, rawCostPrice, rawAvgPrice, hsales]
  have hlog : rawLogistics [cexRow] "A" = 1/8 := by
    rw [rawLogistics, hart]; simp [cexRow]
  have hpen : rawPenalties [cexRow] "A" = 1/8 := by
    rw [rawPenalties, hart]; simp [cexRow]
  have hTE : rawTotalExpenses [cexRow] "A" = 1/4 := by
    rw [rawTotalExpenses, hTC, hlog, hpen]; norm_num
  have r18 : round2 (1/8 : ℚ) = 12/100 := by
    have h1 : (1/8 : ℚ) * 100 = 25/2 := by norm_num
    have hf : ⌊(25/2 : ℚ)⌋ = 12 := by norm_num [Int.floor_eq_iff]
    rw [round2, h1, rhe, hf]
    norm_num
  have e1 : (processRecord [cexRow] "A").total_expenses = 1/4 := by
    show round2 (rawTotalExpenses [cexRow] "A") = 1/4
    rw [hTE]; exact round2_fix_of_cent _ 25 (by norm_num)
  have e2 : (processRecord [cexRow] "A").total_cost = 0 := by
    show round2 (rawTotalCost [cexRow] "A") = 0
    rw [hTC, round2_zero]
  have e3 : (processRecord [cexRow] "A").logistics = 12/100 := by
    show round2 (rawLogistics [cexRow] "A") = 12/100
    rw [hlog, r18]
  have e4 : (processRecord [cexRow] "A").penalties = 12/100 := by
    show round2 (rawPenalties [cexRow] "A") = 12/100
    rw [hpen, r18]
  rw [e1, e2, e3, e4]
  norm_num

/-- Claim C2 amended: the stored total_expenses and net_profit are the
2 decimal roundings of the raw sums total_cost + logistics + penalties and
revenue minus expenses, each monetary field being rounded independently
from the raw values; the identities between the stored rounded fields hold
whenever the raw values are already whole numbers of cents, in which case
every rounding is the identity, but not in general. -/
theorem expense_identities_of_cent_raws (rows : List Row) (a : String) :
    (processRecord rows a).total_expenses
        = round2 (rawTotalCost rows a + rawLogistics rows a
            + rawPenalties rows a)
    ∧ (processRecord rows a).net_profit
        = round2 (rawRevenue rows a - (rawTotalCost rows a
            + rawLogistics rows a + rawPenalties rows a))
    ∧ (round2 (rawTotalCost rows a) = rawTotalCost rows a →
       round2 (rawLogistics rows a) = rawLogistics rows a →
       round2 (rawPenalties rows a) = rawPenalties rows a →
       round2 (rawRevenue rows a) = rawRevenue rows a →
       (processRecord rows a).total_expenses
           = (processRecord rows a).total_cost
             + (processRecord rows a).logistics
             + (processRecord rows a).penalties
       ∧ (processRecord rows a).net_profit
           = (processRecord rows a).revenue
             - (processRecord rows a).total_expenses) := by
  refine ⟨rfl, rfl, fun h1 h2 h3 h4 => ?_⟩
  have hTE : round2 (rawTotalExpenses rows a) = rawTotalExpenses rows a := by
    rw [rawTotalExpenses]
    exact round2_fix_add _ _ (round2_fix_add _ _ h1 h2) h3
  constructor
  · show round2 (rawTotalExpenses rows a)
        = round2 (rawTotalCost rows a) + round2 (rawLogistics rows a)
          + round2 (rawPenalties rows a)
    rw [h1, h2, h3, hTE, rawTotalExpenses]
  · show round2 (rawNetProfit rows a)
        = round2 (rawRevenue rows a) - round2 (rawTotalExpenses rows a)
    calc round2 (rawNetProfit rows a)
        = rawRevenue rows a - rawTotalExpenses rows a := by
          rw [rawNetProfit]; exact round2_fix_sub _ _ h4 hTE
      _ = round2 (rawRevenue rows a) - round2 (rawTotalExpenses rows a) := by
          rw [h4, hTE]

/-- Witness for the amended claim C2 at a concrete table: one Sale row of
quantity 10, price 100 and remittance 900, whose raw values are whole
cents, so the stored identities hold there. -/
theorem expense_identities_witness :
    (processRecord [demoRow] "A").total_expenses
        = (processRecord [demoRow] "A").total_cost
          + (processRecord [demoRow] "A").logistics
          + (processRecord [demoRow] "A").penalties
    ∧ (processRecord [demoRow] "A").net_profit
        = (processRecord [demoRow] "A").revenue
          - (processRecord [demoRow] "A").total_expenses := by
  have hart : articleData [demoRow] "A" = [demoRow] := by
    simp +decide [articleData, demoRow]
  have hsales : salesData [demoRow] "A" = [demoRow] := by
    rw [salesData, hart]; simp +decide [demoRow]
  have hTC : rawTotalCost [demoRow] "A" = 600 := by
    rw [rawTotalCost, rawCostPrice, rawAvgPrice, rawQtySold, hsales]
    simp [demoRow, COST_PERCENTAGE]
    norm_num
  have hlog : rawLogistics [demoRow] "A" = 0 := by
    rw [rawLogistics, hart]; simp [demoRow]
  have hpen : rawPenalties [demoRow] "A" = 0 := by
    rw [rawPenalties, hart]; simp [demoRow]
  have hrev : rawRevenue [demoRow] "A" = 900 := by
    rw [rawRevenue, hart]; simp [demoRow]
  exact (expense_identities_of_cent_raws [demoRow] "A").2.2
    (by rw [hTC]; exact round2_fix_of_cent _ 60000 (by norm_num))
    (by rw [hlog]; exact round2_zero)
    (by rw [hpen]; exact round2_zero)
    (by rw [hrev]; exact round2_fix_of_cent _ 90000 (by norm_num))

/-- Claim C3: for every aggregated sequence, the totalized output is the
record rows followed by the total row as its last element; the total row
sums each summed field over the per record stored values, rounded to two
decimals, and its per unit price and cost cells are blank strings. -/
theorem total_record_sums_and_placement (rs : List SummaryRecord) :
    (add_total_row rs).dropLast = rs.map toOut
    ∧ ∃ t, (add_total_row rs).getLast? = some t
        ∧ t.qty_sold = Cell.i ((rs.map (·.qty_sold)).sum)
        ∧ t.qty_returned = Cell.i ((rs.map (·.qty_returned)).sum)
        ∧ t.total_cost = Cell.q (round2 ((rs.map (·.total_cost)).sum))
        ∧ t.logistics = Cell.q (round2 ((rs.map (·.logistics)).sum))
        ∧ t.penalties = Cell.q (round2 ((rs.map (·.penalties)).sum))
        ∧ t.total_expenses
            = Cell.q (round2 ((rs.map (·.total_expenses)).sum))
        ∧ t.revenue = Cell.q (round2 ((rs.map (·.revenue)).sum))
        ∧ t.net_profit = Cell.q (round2 ((rs.map (·.net_profit)).sum))
        ∧ t.avg_price = Cell.s ""
        ∧ t.cost_price = Cell.s "" := by
  refine ⟨?_, total_row rs, ?_, rfl, rfl, rfl, rfl, rfl, rfl, rfl, rfl,
    rfl, rfl⟩
  · rw [add_total_row]
    simp
  · rw [add_total_row]
    simp

/-- Claim C4: when every stored monetary field of the aggregated records
is already rounded to two decimals, the second rounding performed by the
total row is an idempotent no op: each total cell holds the plain sum of
the stored values. -/
theorem second_rounding_noop (rs : List SummaryRecord)
    (h : ∀ r ∈ rs, round2 r.total_cost = r.total_cost
        ∧ round2 r.logistics = r.logistics
        ∧ round2 r.penalties = r.penalties
        ∧ round2 r.total_expenses = r.total_expenses
        ∧ round2 r.revenue = r.revenue
        ∧ round2 r.net_profit = r.net_profit) :
    (total_row rs).total_cost = Cell.q ((rs.map (·.total_cost)).sum)
    ∧ (total_row rs).logistics = Cell.q ((rs.map (·.logistics)).sum)
    ∧ (total_row rs).penalties = Cell.q ((rs.map (·.penalties)).sum)
    ∧ (total_row rs).total_expenses
        = Cell.q ((rs.map (·.total_expenses)).sum)
    ∧ (total_row rs).revenue = Cell.q ((rs.map (·.revenue)).sum)
    ∧ (total_row rs).net_profit = Cell.q ((rs.map (·.net_profit)).sum) := by
  refine ⟨?_, ?_, ?_, ?_, ?_, ?_⟩
  · refine congrArg Cell.q (round2_sum_fix _ ?_)
    intro q hq
    obtain ⟨r, hr, rfl⟩ := List.mem_map.mp hq
    exact (h r hr).1
  · refine congrArg Cell.q (round2_sum_fix _ ?_)
    intro q hq
    obtain ⟨r, hr, rfl⟩ := List.mem_map.mp hq
    exact (h r hr).2.1
  · refine congrArg Cell.q (round2_sum_fix _ ?_)
    intro q hq
    obtain ⟨r, hr, rfl⟩ := List.mem_map.mp hq
    exact (h r hr).2.2.1
  · refine congrArg Cell.q (round2_sum_fix _ ?_)
    intro q hq
    obtain ⟨r, hr, rfl⟩ := List.mem_map.mp hq
    exact (h r hr).2.2.2.1
  · refine congrArg Cell.q (round2_sum_fix _ ?_)
    intro q hq
    obtain ⟨r, hr, rfl⟩ := List.mem_map.mp hq
    exact (h r hr).2.2.2.2.1
  · refine congrArg Cell.q (round2_sum_fix _ ?_)
    intro q hq
    obtain ⟨r, hr, rfl⟩ := List.mem_map.mp hq
    exact (h r hr).2.2.2.2.2

/-- Witness for claim C4 at a concrete aggregated record whose monetary
fields are all whole numbers of cents. -/
theorem second_rounding_noop_witness :
    (total_row [demoRecord]).total_cost
        = Cell.q (([demoRecord].map (·.total_cost)).sum)
    ∧ (total_row [demoRecord]).logistics
        = Cell.q (([demoRecord].map (·.logistics)).sum)
    ∧ (total_row [demoRecord]).penalties
        = Cell.q (([demoRecord].map (·.penalties)).sum)
    ∧ (total_row [demoRecord]).total_expenses
        = Cell.q (([demoRecord].map (·.total_expenses)).sum)
    ∧ (total_row [demoRecord]).revenue
        = Cell.q (([demoRecord].map (·.revenue)).sum)
    ∧ (total_row [demoRecord]).net_profit
        = Cell.q (([demoRecord].map (·.net_profit)).sum) := by
  refine second_rounding_noop [demoRecord] ?_
  intro r hr
  simp only [List.mem_singleton] at hr
  subst hr
  refine ⟨?_, ?_, ?_, ?_, ?_, ?_⟩
  · exact round2_fix_of_cent _ 60000 (by norm_num [demoRecord])
  · exact round2_fix_of_cent _ 250 (by norm_num [demoRecord])
  · exact round2_fix_of_cent _ 150 (by norm_num [demoRecord])
  · exact round2_fix_of_cent _ 60400 (by norm_num [demoRecord])
  · exact round2_fix_of_cent _ 90000 (by norm_num [demoRecord])
  · exact round2_fix_of_cent _ 29600 (by norm_num [demoRecord])

/-- Claim C6: the total row margin divides total net profit by total
revenue with no zero guard: when the total revenue is nonzero it equals
that quotient times 100 rounded to 2 decimals, and when the total revenue
is zero the unguarded division leaves the cell undefined, unlike the per
record margin, which is a guarded 0 for nonpositive revenue. -/
theorem total_margin_unguarded (rs : List SummaryRecord) (rows : List Row)
    (a : String) :
    ((rs.map (·.revenue)).sum ≠ 0 →
      (total_row rs).margin = Cell.q (round2
        ((rs.map (·.net_profit)).sum / (rs.map (·.revenue)).sum * 100)))
    ∧ ((rs.map (·.revenue)).sum = 0 → (total_row rs).margin = Cell.undef)
    ∧ (rawRevenue rows a ≤ 0 → (processRecord rows a).margin = 0) := by
  refine ⟨fun h => ?_, fun h => ?_, fun h => ?_⟩
  · simp [total_row, h]
  · simp [total_row, h]
  · have h2 := not_lt.mpr h
    simp [processRecord, h2, round2_zero]

/-- Witness for claim C6: a one record sequence with revenue 900 has a
defined total margin, the empty sequence has total revenue 0 and an
undefined total margin, and a per record margin with revenue 0 is 0. -/
theorem total_margin_unguarded_witness :
    (total_row [demoRecord]).margin
        = Cell.q (round2 (([demoRecord].map (·.net_profit)).sum
            / ([demoRecord].map (·.revenue)).sum * 100))
    ∧ (total_row ([] : List SummaryRecord)).margin = Cell.undef
    ∧ (processRecord ([] : List Row) "A").margin = 0 := by
  refine ⟨?_, ?_, ?_⟩
  · exact (total_margin_unguarded [demoRecord] [] "A").1
      (by norm_num [demoRecord])
  · exact (total_margin_unguarded [] [] "A").2.1 (by simp)
  · exact (total_margin_unguarded [] [] "A").2.2
      (by simp [rawRevenue, articleData])

/-- Claim C8: when the input path does not exist, main prints the user
facing message and returns before any processing: the outcome is the
early return, no output file is created and no exception escapes. -/
theorem missing_input_early_return (env : Env)
    (h : env.inputExists = false) :
    mainProgram env = MainResult.earlyReturn "[!] Ошибка: Файл не найден"
    ∧ (∀ out, mainProgram env ≠ MainResult.completed out)
    ∧ (∀ e, mainProgram env ≠ MainResult.caughtError e) := by
  have hm : mainProgram env
      = MainResult.earlyReturn "[!] Ошибка: Файл не найден" := by
    simp [mainProgram, h]
  refine ⟨hm, fun out hc => ?_, fun e hc => ?_⟩
  · rw [hm] at hc
    exact MainResult.noConfusion hc
  · rw [hm] at hc
    exact MainResult.noConfusion hc

/-- Witness for claim C8 at a concrete environment with a missing input
path. -/
theorem missing_input_early_return_witness :
    mainProgram ⟨false, []⟩
      = MainResult.earlyReturn "[!] Ошибка: Файл не найден" :=
  (missing_input_early_return ⟨false, []⟩ rfl).1

/-- Claim C9 counterexample: on the empty table the pipeline does not
return a summary at all, so no total record with zero sums is produced. -/
theorem empty_input_pipeline_not_ok :
    (process_report ([] : List Row)).isOk = false := rfl

/-- Claim C9 amended: for an empty input table the aggregation loop
produces zero records, but the sort step then raises on the missing sort
column, because the data frame of an empty list has no columns; the top
level handler catches it and no total record or output file is produced. -/
theorem empty_input_raises_keyerror :
    process_report ([] : List Row)
        = Except.error "KeyError: Продано (шт)"
    ∧ mainProgram ⟨true, []⟩
        = MainResult.caughtError "KeyError: Продано (шт)" :=
  ⟨rfl, rfl⟩

/-- Claim C10: the stored total cost is the 2 decimal rounding of the
product of the unrounded average sale price, the cost ratio and the units
sold; each monetary field being rounded independently, the stored total
cost differs in general from the stored rounded unit cost times units
sold, witnessed by one Sale row with price 0.025 and quantity 10. -/
theorem total_cost_from_unrounded_avg :
    (∀ (rows : List Row) (a : String),
      (processRecord rows a).total_cost
        = round2 (rawAvgPrice rows a * COST_PERCENTAGE
            * (rawQtySold rows a : ℚ)))
    ∧ (processRecord [c10Row] "A").total_cost
        ≠ (processRecord [c10Row] "A").cost_price
          * ((processRecord [c10Row] "A").qty_sold : ℚ) := by
  constructor
  · intro rows a
    rfl
  · have hart : articleData [c10Row] "A" = [c10Row] := by
      simp +decide [articleData, c10Row]
    have hsales : salesData [c10Row] "A" = [c10Row] := by
      rw [salesData, hart]; simp +decide [c10Row]
    have hqty : rawQtySold [c10Row] "A" = 10 := by
      rw [rawQtySold, hsales]; simp [c10Row]
    have havg : rawAvgPrice [c10Row] "A" = 1/40 := by
      rw [rawAvgPrice, hsales]; simp [c10Row]
    have hcost : rawCostPrice [c10Row] "A" = 3/200 := by
      rw [rawCostPrice, havg, COST_PERCENTAGE]; norm_num
    have hTC : rawTotalCost [c10Row] "A" = 3/20 := by
      rw [rawTotalCost, hcost, hqty]; norm_num
    have rc : round2 (3/200 : ℚ) = 2/100 := by
      have h1 : (3/200 : ℚ) * 100 = 3/2 := by norm_num
      have hf : ⌊(3/2 : ℚ)⌋ = 1 := by norm_num [Int.floor_eq_iff]
      rw [round2, h1, rhe, hf]
      norm_num
    have rt : round2 (3/20 : ℚ) = 3/20 :=
      round2_fix_of_cent _ 15 (by norm_num)
    have e1 : (processRecord [c10Row] "A").total_cost = 3/20 := by
      show round2 (rawTotalCost [c10Row] "A") = 3/20
      rw [hTC, rt]
    have e2 : (processRecord [c10Row] "A").cost_price = 2/100 := by
      show round2 (rawCostPrice [c10Row] "A") = 2/100
      rw [hcost, rc]
    have e3 : (processRecord [c10Row] "A").qty_sold = 10 := hqty
    rw [e1, e2, e3]
    norm_num
